import Mathlib

/-!
Shallow embedding of the core of the `assignment-modalia` application
(`src/App.tsx` and `src/utils/rescaleImage.ts`).

Modelling conventions:
  * JavaScript promises and timers are abstracted away: each `wait` either
    completes or rejects with an abort error, and the abort signal of a call
    chain is modelled by an oracle `Option Nat` giving the index of the wait
    during which the signal fires (`none` = the signal never fires).
  * `crypto.getRandomValues`-based `uuid()` and `new Date().toISOString()` are
    modelled as an oracle pair `fresh : String × String` (fresh id, timestamp)
    supplied per call chain.
  * `localStorage` holds a single keyed entry (`ai-studio-history-v1`); it is
    modelled as a `RawPayload` describing the outcome of
    `getItem` + `JSON.parse`: the key can be missing, hold a string that fails
    to parse, or hold a string parsing to a JSON value.  `JSON.stringify`
    followed by `JSON.parse` is the identity on structured values, so `setItem`
    stores the structured value directly.
  * Byte sizes and pixel dimensions are `Nat`; the canvas scale factor is a
    rational (`ℚ`), with `Math.round` as floor of `x + 1/2`.
-/

/-- The three style options of the select box (`STYLES` in App.tsx). -/
inductive StyleOption where
  | Editorial
  | Streetwear
  | Vintage
deriving DecidableEq

/-- The `Generation` record stored in history. -/
structure Generation where
  id : String
  imageUrl : String
  prompt : String
  style : StyleOption
  createdAt : String
deriving DecidableEq

/-- JSON values, as produced by `JSON.parse`. -/
inductive JVal where
  | null
  | bool (b : Bool)
  | num (n : Int)
  | str (s : String)
  | arr (elems : List JVal)
  | obj (fields : List (String × JVal))

/-- Whether a JSON value is an array (`Array.isArray`). -/
def JVal.isArr : JVal → Bool
  | .arr _ => true
  | _ => false

/-- Outcome of `localStorage.getItem(HISTORY_KEY)` followed by `JSON.parse`:
the key may be absent, the stored string may fail to parse, or it parses to a
JSON value. -/
inductive RawPayload where
  | missing
  | unparseable
  | value (v : JVal)

/-- `loadHistory` (App.tsx:333-342): returns `[]` when the key is absent, when
`JSON.parse` throws, or when the parsed value is not an array; otherwise it
returns the first 5 elements of the parsed array, with no per-element
validation. -/
def loadHistory : RawPayload → List JVal
  | .missing => []
  | .unparseable => []
  | .value (.arr elems) => elems.take 5
  | .value _ => []

/-- Serialization of a `Generation` record by `JSON.stringify`. -/
def encodeGeneration (g : Generation) : JVal :=
  .obj [("id", .str g.id), ("imageUrl", .str g.imageUrl),
        ("prompt", .str g.prompt),
        ("style", .str (match g.style with
          | .Editorial => "Editorial"
          | .Streetwear => "Streetwear"
          | .Vintage => "Vintage")),
        ("createdAt", .str g.createdAt)]

/-- `saveHistory` (App.tsx:344-346): `setItem(KEY, JSON.stringify(items.slice(0, 5)))`;
the stored payload is the serialized first-5 slice of the given items. -/
def saveHistory (items : List Generation) : RawPayload :=
  .value (.arr ((items.take 5).map encodeGeneration))

/-- The insert performed by `startGenerate` on success (App.tsx:95):
`[gen, ...history].slice(0, 5)` — prepend then truncate to 5, as a pure
function of its inputs. -/
def insertHistory (g : Generation) (history : List Generation) : List Generation :=
  (g :: history).take 5

/-- Number of elements of the stored payload, when it is a structured array. -/
def storedLength : RawPayload → Nat
  | .value (.arr elems) => elems.length
  | _ => 0

/-- In-memory application state relevant to the history store: the `history`
React state and the persisted storage cell. -/
structure AppState where
  history : List Generation
  storage : RawPayload

/-- `clearHistory` (App.tsx:123-126): `setHistory([]); saveHistory([])`. -/
def clearHistory (s : AppState) : AppState :=
  { s with history := [], storage := saveHistory [] }

/-! ## Image normalizer (`src/utils/rescaleImage.ts`) -/

/-- The data of an uploaded file that `downscaleIfNeeded` inspects: its byte
size and declared media type, and the pixel dimensions of the decoded image. -/
structure ImgFile where
  size : Nat
  type : String
  width : Nat
  height : Nat
deriving DecidableEq

/-- `needsBySize` (rescaleImage.ts:21): `file.size > 10 * 1024` — despite the
inline comment `// >10MB`, the threshold in the code is 10·1024 bytes. -/
def needsBySize (f : ImgFile) : Bool :=
  decide (10 * 1024 < f.size)

/-- `needsByDim` (rescaleImage.ts:24): `img.width > maxDim || img.height > maxDim`. -/
def needsByDim (f : ImgFile) (maxDim : Nat) : Bool :=
  decide (maxDim < f.width) || decide (maxDim < f.height)

/-- JavaScript `Math.round` on a nonnegative rational: `⌊x + 1/2⌋`. -/
def jsRound (q : ℚ) : Int :=
  ⌊q + 1 / 2⌋

/-- Result of `downscaleIfNeeded`: the original data URL unchanged, or a
re-encoded canvas export with the given pixel dimensions, output media type
and encoder quality. -/
inductive ScaleResult where
  | original
  | downscaled (w h : Int) (outMime : String) (quality : ℚ)
deriving DecidableEq

/-- Output media type of a scale result (`none` when the original was returned). -/
def ScaleResult.outTypeOf : ScaleResult → Option String
  | .original => none
  | .downscaled _ _ t _ => some t

/-- Encoder quality of a scale result. -/
def ScaleResult.qualityOf : ScaleResult → Option ℚ
  | .original => none
  | .downscaled _ _ _ q => some q

/-- `downscaleIfNeeded` (rescaleImage.ts:19-44): decide whether the file needs
scaling (by byte size or by pixel dimensions), and if so draw it on a canvas
scaled by `min(maxDim/width, maxDim/height)` and export it via
`toDataURL(outType, 0.9)`, where `outType` re-encodes a PNG as JPEG exactly
when the size condition triggered. -/
def downscaleIfNeeded (f : ImgFile) (maxDim : Nat) : ScaleResult :=
  if !needsBySize f && !needsByDim f maxDim then .original
  else
    let scale : ℚ := min ((maxDim : ℚ) / (f.width : ℚ)) ((maxDim : ℚ) / (f.height : ℚ))
    let w := jsRound ((f.width : ℚ) * scale)
    let h := jsRound ((f.height : ℚ) * scale)
    let outType := if f.type = "image/png" && needsBySize f then "image/jpeg" else f.type
    .downscaled w h outType (9 / 10)

/-! ## Retryable generation client (App.tsx:257-328) -/

/-- Errors thrown on the generation path: the `AbortError` `DOMException`
thrown by `wait`, the `OVERLOADED` error `new Error("Model overloaded")`
thrown by `mockGenerateAPI`, and the `new Error("Unreachable")` thrown when
the retry loop exits without running. -/
inductive Err where
  | abortError
  | overloadedError
  | unreachable
deriving DecidableEq

/-- Outcome of one generation call: a `Generation` or a thrown error. -/
inductive GenResult where
  | ok (g : Generation)
  | err (e : Err)
deriving DecidableEq

/-- The fields of a `GenerateRequest` other than the abort signal (the signal
is modelled separately as a wait-index oracle). -/
structure GenerateRequest where
  imageDataUrl : String
  prompt : String
  style : StyleOption
deriving DecidableEq

/-- `wait` (App.tsx:273-285), timing abstracted away: if the abort signal fires
while the timer is pending (or had already fired), the promise rejects with the
`AbortError` `DOMException`; otherwise it resolves. -/
def wait (aborted : Bool) : Except Err Unit :=
  if aborted then .error .abortError else .ok ()

/-- Abort-signal oracle: `some k` means the signal fires during the `k`-th wait
of the call chain (counting every `wait`, simulated latency and backoff alike);
`signalFired ab` says whether the current wait is the one that aborts. -/
def signalFired (ab : Option Nat) : Bool :=
  decide (ab = some 0)

/-- Advance the abort-signal oracle past one completed wait. -/
def tick (ab : Option Nat) : Option Nat :=
  ab.map (fun k => k - 1)

/-- The `Generation` built on the success path of `mockGenerateAPI`
(App.tsx:302-308), with `uuid()` and `new Date().toISOString()` supplied by the
oracle `fresh`. -/
def mkGeneration (req : GenerateRequest) (fresh : String × String) : Generation :=
  { id := fresh.1, imageUrl := req.imageDataUrl, prompt := req.prompt,
    style := req.style, createdAt := fresh.2 }

/-- The body of `mockGenerateAPI` after its simulated latency (App.tsx:295-308):
if the process-wide `overloadErrorCount` has reached 3, throw the
`OVERLOADED` error; otherwise increment the counter and return a fresh
`Generation`.  Returns the outcome together with the new counter. -/
def mockGenerateBody (req : GenerateRequest) (fresh : String × String)
    (counter : Nat) : GenResult × Nat :=
  if 3 ≤ counter then (.err .overloadedError, counter)
  else (.ok (mkGeneration req fresh), counter + 1)

/-- `mockGenerateAPI` (App.tsx:289-309): await the simulated 1-2s latency
(cancellable), then run the overload-counter body. -/
def mockGenerateAPI (req : GenerateRequest) (fresh : String × String)
    (aborted : Bool) (counter : Nat) : GenResult × Nat :=
  match wait aborted with
  | .error _ => (.err .abortError, counter)
  | .ok _ => mockGenerateBody req fresh counter

/-- The `while (attempt < maxAttempts)` loop of `generateWithRetries`
(App.tsx:311-328), recursing on the number of remaining loop iterations
`maxAttempts - attempt`.  Returns
`(outcome, overload counter, mock-API calls made, waits entered)`.
Each iteration awaits `mockGenerateAPI`; an `AbortError` is rethrown at once;
on any other error, if the incremented attempt count reaches `maxAttempts` the
overload counter is reset to 0 and the error rethrown, otherwise the
(cancellable) backoff wait runs and the loop continues.  With 0 iterations
remaining the loop exits and `new Error("Unreachable")` is thrown. -/
def genRetriesGo (req : GenerateRequest) (fresh : String × String) :
    Nat → Option Nat → Nat → GenResult × Nat × Nat × Nat
  | 0, _, counter => (.err .unreachable, counter, 0, 0)
  | remaining + 1, ab, counter =>
    let m := mockGenerateAPI req fresh (signalFired ab) counter
    match m.1 with
    | .ok g => (.ok g, m.2, 1, 1)
    | .err e =>
      if e = .abortError then (.err e, m.2, 1, 1)
      else if remaining = 0 then (.err e, 0, 1, 1)
      else
        match wait (signalFired (tick ab)) with
        | .error _ => (.err .abortError, m.2, 1, 2)
        | .ok _ =>
          let r := genRetriesGo req fresh remaining (tick (tick ab)) m.2
          (r.1, r.2.1, r.2.2.1 + 1, r.2.2.2 + 2)

/-- `generateWithRetries` (App.tsx:311-328).  `maxAttempts` is an `Int` so that
non-positive values (for which the loop never runs) are expressible; the loop
runs at most `maxAttempts.toNat` iterations.  Returns
`(outcome, overload counter, mock-API calls made, waits entered)`. -/
def generateWithRetries (req : GenerateRequest) (fresh : String × String)
    (maxAttempts : Int) (ab : Option Nat) (counter : Nat) :
    GenResult × Nat × Nat × Nat :=
  genRetriesGo req fresh maxAttempts.toNat ab counter

/-- `startGenerate` (App.tsx:84-110): with no image present it returns at once;
otherwise it builds the request with the trimmed prompt, awaits
`generateWithRetries` (default `maxAttempts = 3`), and on success prepends the
new generation to history, truncates to 5, and persists; on any error the
history and storage are untouched.  Returns the new application state, the new
overload counter and the call outcome (`none` when no call was made). -/
def startGenerate (imageDataUrl : Option String) (prompt : String)
    (style : StyleOption) (fresh : String × String) (ab : Option Nat)
    (counter : Nat) (s : AppState) : AppState × Nat × Option GenResult :=
  match imageDataUrl with
  | none => (s, counter, none)
  | some url =>
    let req : GenerateRequest := { imageDataUrl := url, prompt := prompt.trim, style := style }
    let r := generateWithRetries req fresh 3 ab counter
    match r.1 with
    | .ok g =>
      let next := insertHistory g s.history
      ({ history := next, storage := saveHistory next }, r.2.1, some r.1)
    | .err e => (s, r.2.1, some (.err e))

/-! ## Helper lemmas -/

/-- A successful `mockGenerateAPI` outcome is exactly the generation built from
the request and the freshness oracle. -/
theorem mockGenerateAPI_ok (req : GenerateRequest) (fresh : String × String)
    (a : Bool) (c : Nat) (g : Generation)
    (h : (mockGenerateAPI req fresh a c).1 = .ok g) : g = mkGeneration req fresh := by
  cases a <;> by_cases h3 : 3 ≤ c <;>
    simp_all [mockGenerateAPI, mockGenerateBody, wait]

/-- A successful retry-loop outcome is exactly the generation built from the
request and the freshness oracle. -/
theorem genRetriesGo_ok (req : GenerateRequest) (fresh : String × String) :
    ∀ (n : Nat) (ab : Option Nat) (c : Nat) (g : Generation),
      (genRetriesGo req fresh n ab c).1 = .ok g → g = mkGeneration req fresh := by
  intro n
  induction n with
  | zero =>
    intro ab c g h
    simp [genRetriesGo] at h
  | succ m ih =>
    intro ab c g h
    simp only [genRetriesGo] at h
    rcases hr : (mockGenerateAPI req fresh (signalFired ab) c).1 with g' | e
    · simp only [hr] at h
      have hg : g' = g := by simpa using h
      exact hg ▸ mockGenerateAPI_ok req fresh (signalFired ab) c g' hr
    · simp only [hr] at h
      by_cases he : e = Err.abortError
      · simp [he] at h
      · simp only [he, if_false] at h
        by_cases hm0 : m = 0
        · simp [hm0] at h
        · simp only [hm0, if_false] at h
          cases hw : signalFired (tick ab)
          · simp only [hw, wait, if_false] at h
            exact ih _ _ _ (by simpa using h)
          · simp [hw, wait] at h

/-- A successful `generateWithRetries` outcome is exactly the generation built
from the request and the freshness oracle. -/
theorem generateWithRetries_ok (req : GenerateRequest) (fresh : String × String)
    (m : Int) (ab : Option Nat) (c : Nat) (g : Generation)
    (h : (generateWithRetries req fresh m ab c).1 = .ok g) :
    g = mkGeneration req fresh :=
  genRetriesGo_ok req fresh m.toNat ab c g h

/-- When the call chain fails, `startGenerate` leaves the application state
(history and storage) untouched. -/
theorem startGenerate_err (url promptText : String) (style : StyleOption)
    (fresh : String × String) (ab : Option Nat) (counter : Nat) (s : AppState)
    (e : Err)
    (h : (generateWithRetries ⟨url, promptText.trim, style⟩ fresh 3 ab counter).1 = .err e) :
    (startGenerate (some url) promptText style fresh ab counter s).1 = s := by
  simp [startGenerate, h]

/-- If the abort signal fires during the `k`-th wait of a call chain that
actually reaches that wait (i.e. `k` is below the number of waits of the
unaborted run), the chain rejects with the abort error, makes exactly
`k / 2 + 1` mock-API calls (the attempts started up to the aborting wait, with
no retry afterwards), and stops at wait `k`. -/
theorem genRetriesGo_abort (req : GenerateRequest) (fresh : String × String) :
    ∀ (n k c : Nat),
      k < (genRetriesGo req fresh n none c).2.2.2 →
      (genRetriesGo req fresh n (some k) c).1 = .err .abortError ∧
      (genRetriesGo req fresh n (some k) c).2.2.1 = k / 2 + 1 ∧
      (genRetriesGo req fresh n (some k) c).2.2.2 = k + 1 := by
  intro n
  induction n with
  | zero =>
    intro k c hk
    simp [genRetriesGo] at hk
  | succ m ih =>
    intro k c hk
    by_cases h3 : 3 ≤ c
    · by_cases hm0 : m = 0
      · subst hm0
        simp [genRetriesGo, mockGenerateAPI, mockGenerateBody, wait, signalFired, h3] at hk
        have hk0 : k = 0 := by omega
        subst hk0
        simp [genRetriesGo, mockGenerateAPI, mockGenerateBody, wait, signalFired, h3]
      · have hkn : k < (genRetriesGo req fresh m none c).2.2.2 + 2 := by
          simpa [genRetriesGo, mockGenerateAPI, mockGenerateBody, wait, signalFired,
            tick, h3, hm0] using hk
        rcases k with _ | _ | k'
        · simp [genRetriesGo, mockGenerateAPI, mockGenerateBody, wait, signalFired, tick, h3]
        · simp [genRetriesGo, mockGenerateAPI, mockGenerateBody, wait, signalFired, tick, h3, hm0]
        · have ht1 : tick (some (k' + 2)) = some (k' + 1) := by
            simp [tick]
          have ht2 : tick (some (k' + 1)) = some k' := by
            simp [tick]
          obtain ⟨ha, hb, hw⟩ := ih k' c (by omega)
          simp only [genRetriesGo, mockGenerateAPI, mockGenerateBody, wait, signalFired,
            tick, h3, hm0] at ha hb hw ⊢
          simp_all
          omega
    · have h1 : (genRetriesGo req fresh (m + 1) none c).2.2.2 = 1 := by
        simp [genRetriesGo, mockGenerateAPI, mockGenerateBody, wait, signalFired, h3]
      rw [h1] at hk
      have hk0 : k = 0 := by omega
      subst hk0
      simp [genRetriesGo, mockGenerateAPI, wait, signalFired]

/-! ## Claims -/

/-- C1: from a fresh overload counter, with `maxAttempts = 3`, the first three
calls each succeed on their first attempt and take the counter to 1, 2, 3; the
fourth call makes three attempts (first attempt plus two retries), all failing
with the overloaded error, rejects with it and resets the counter to 0; a
fifth call then succeeds on its first attempt. -/
theorem claim_C1 : ∀ (r1 r2 r3 r4 r5 : GenerateRequest)
    (f1 f2 f3 f4 f5 : String × String),
    generateWithRetries r1 f1 3 none 0 = (.ok (mkGeneration r1 f1), 1, 1, 1) ∧
    generateWithRetries r2 f2 3 none 1 = (.ok (mkGeneration r2 f2), 2, 1, 1) ∧
    generateWithRetries r3 f3 3 none 2 = (.ok (mkGeneration r3 f3), 3, 1, 1) ∧
    generateWithRetries r4 f4 3 none 3 = (.err .overloadedError, 0, 3, 5) ∧
    generateWithRetries r5 f5 3 none 0 = (.ok (mkGeneration r5 f5), 1, 1, 1) := by
  intro r1 r2 r3 r4 r5 f1 f2 f3 f4 f5
  exact ⟨rfl, rfl, rfl, rfl, rfl⟩

/-- C2: if the abort signal fires during the `k`-th wait of a call chain that
reaches that wait, the wait rejects with the abort error, the chain rejects
with the same abort error having made only the `k / 2 + 1` mock calls started
up to that point (no further retries), and — for the application's call with
`maxAttempts = 3` — the history and storage are left unchanged. -/
theorem claim_C2 : ∀ (url promptText : String) (style : StyleOption)
    (fresh : String × String) (m : Int) (counter k : Nat) (s : AppState),
    k < (generateWithRetries ⟨url, promptText.trim, style⟩ fresh m none counter).2.2.2 →
    wait true = .error .abortError ∧
    (generateWithRetries ⟨url, promptText.trim, style⟩ fresh m (some k) counter).1
        = .err .abortError ∧
    (generateWithRetries ⟨url, promptText.trim, style⟩ fresh m (some k) counter).2.2.1
        = k / 2 + 1 ∧
    (m = 3 →
      (startGenerate (some url) promptText style fresh (some k) counter s).1 = s) := by
  intro url promptText style fresh m counter k s hk
  obtain ⟨ha, hb, _⟩ :=
    genRetriesGo_abort (⟨url, promptText.trim, style⟩ : GenerateRequest) fresh
      m.toNat k counter hk
  refine ⟨rfl, ha, hb, ?_⟩
  intro hm3
  subst hm3
  exact startGenerate_err url promptText style fresh (some k) counter s .abortError ha

/-- C2 witness: aborting during the initial simulated delay of a fresh chain. -/
theorem claim_C2_w :
    (0 < (generateWithRetries ⟨"u", ("p" : String).trim, .Editorial⟩ ("i", "t")
        3 none 0).2.2.2) ∧
    (wait true = .error .abortError ∧
     (generateWithRetries ⟨"u", ("p" : String).trim, .Editorial⟩ ("i", "t")
        3 (some 0) 0).1 = .err .abortError ∧
     (generateWithRetries ⟨"u", ("p" : String).trim, .Editorial⟩ ("i", "t")
        3 (some 0) 0).2.2.1 = 0 / 2 + 1 ∧
     ((3 : Int) = 3 →
       (startGenerate (some "u") "p" .Editorial ("i", "t") (some 0) 0
          ⟨[], .missing⟩).1 = ⟨[], .missing⟩)) :=
  ⟨by decide, claim_C2 "u" "p" .Editorial ("i", "t") 3 0 0 ⟨[], .missing⟩ (by decide)⟩

/-- C3: after any sequence of inserts the history has length at most 5 and
the most recently inserted generation sits at index 0; a save persists at most
5 items. -/
theorem claim_C3 : ∀ (h0 gs : List Generation) (g : Generation)
    (items : List Generation),
    (insertHistory g (gs.foldl (fun h x => insertHistory x h) h0)).length ≤ 5 ∧
    (insertHistory g (gs.foldl (fun h x => insertHistory x h) h0)).head? = some g ∧
    storedLength (saveHistory items) ≤ 5 := by
  intro h0 gs g items
  refine ⟨?_, ?_, ?_⟩
  · simp [insertHistory]
  · simp [insertHistory]
  · simp [saveHistory, storedLength]

/-- C4: `loadHistory` returns the empty list on a missing payload, on a payload
that fails to parse, and on a payload parsing to a non-array value. -/
theorem claim_C4 :
    loadHistory .missing = [] ∧
    loadHistory .unparseable = [] ∧
    ∀ v : JVal, v.isArr = false → loadHistory (.value v) = [] := by
  refine ⟨rfl, rfl, ?_⟩
  intro v hv
  cases v <;> simp_all [loadHistory, JVal.isArr]

/-- C4 witness: a payload parsing to JSON `null` loads as the empty list. -/
theorem claim_C4_w : JVal.null.isArr = false ∧ loadHistory (.value .null) = [] :=
  ⟨rfl, claim_C4.2.2 .null rfl⟩

/-- C5: clearing the history empties the in-memory history and persists the
empty state, so a subsequent load yields the empty list. -/
theorem claim_C5 : ∀ s : AppState,
    (clearHistory s).history = [] ∧ loadHistory (clearHistory s).storage = [] := by
  intro s
  exact ⟨rfl, rfl⟩

/-- C6: a successful `startGenerate` call yields a generation whose prompt is
the trimmed input prompt, whose style and image are the inputs, and whose id
and timestamp are the fresh values produced during the call. -/
theorem claim_C6 : ∀ (url promptText : String) (style : StyleOption)
    (fresh : String × String) (ab : Option Nat) (counter : Nat) (s : AppState)
    (g : Generation),
    (startGenerate (some url) promptText style fresh ab counter s).2.2 = some (.ok g) →
    g.prompt = promptText.trim ∧ g.style = style ∧ g.imageUrl = url ∧
    g.id = fresh.1 ∧ g.createdAt = fresh.2 := by
  intro url promptText style fresh ab counter s g h
  simp only [startGenerate] at h
  rcases hr : (generateWithRetries ⟨url, promptText.trim, style⟩ fresh 3 ab counter).1
    with g' | e
  · simp only [hr] at h
    have hg : g' = g := by simpa using h
    have hshape := generateWithRetries_ok _ fresh 3 ab counter g' hr
    subst hg
    subst hshape
    exact ⟨rfl, rfl, rfl, rfl, rfl⟩
  · simp [hr] at h

/-- C6 witness: a concrete successful call with a padded prompt. -/
theorem claim_C6_w :
    ((startGenerate (some "img") "  two cats  " .Streetwear ("id1", "2024-01-01")
        none 0 ⟨[], .missing⟩).2.2
      = some (.ok ⟨"id1", "img", ("  two cats  " : String).trim, .Streetwear,
          "2024-01-01"⟩)) ∧
    (("id1", "img", ("  two cats  " : String).trim, "2024-01-01") =
      ("id1", "img", ("  two cats  " : String).trim, "2024-01-01")) ∧
    (⟨"id1", "img", ("  two cats  " : String).trim, .Streetwear,
        "2024-01-01"⟩ : Generation).prompt = ("  two cats  " : String).trim :=
  ⟨rfl, rfl,
    (claim_C6 "img" "  two cats  " .Streetwear ("id1", "2024-01-01") none 0
      ⟨[], .missing⟩ _ rfl).1⟩

/-- C7: the code's size condition is `file.size > 10 * 1024` (10 KB), not the
documented 10 MB: a 20 480-byte 100×100 JPEG — far below 10 MB and within the
1920-pixel bound — is nevertheless downscaled (in fact upscaled to
1920×1920) instead of being returned unchanged. -/
theorem claim_C7 :
    downscaleIfNeeded ⟨20480, "image/jpeg", 100, 100⟩ 1920
      = .downscaled 1920 1920 "image/jpeg" (9 / 10) ∧
    ¬ (10 * 1024 * 1024 < 20480) ∧
    needsByDim ⟨20480, "image/jpeg", 100, 100⟩ 1920 = false := by
  refine ⟨?_, by norm_num, by decide⟩
  simp [downscaleIfNeeded, needsBySize, needsByDim, jsRound]
  norm_num

/-- C8 counterexample: an 11 MB 2000×1000 PNG triggers both the size and the
dimension conditions, and the code still re-encodes it as JPEG, whereas the
claim ("JPEG iff size and not dimension") requires PNG to be preserved. -/
theorem claim_C8_cex :
    needsBySize ⟨11534336, "image/png", 2000, 1000⟩ = true ∧
    needsByDim ⟨11534336, "image/png", 2000, 1000⟩ 1920 = true ∧
    downscaleIfNeeded ⟨11534336, "image/png", 2000, 1000⟩ 1920
      = .downscaled 1920 960 "image/jpeg" (9 / 10) ∧
    "image/jpeg" ≠ "image/png" := by
  refine ⟨by decide, by decide, ?_, by decide⟩
  simp [downscaleIfNeeded, needsBySize, needsByDim, jsRound]
  norm_num

/-- C8 (amended): when downscaling runs, the output is re-encoded as JPEG at
quality 0.9 exactly when the source is PNG and the size condition holds,
regardless of the dimension condition; otherwise the original media type is
preserved. -/
theorem claim_C8 : ∀ (f : ImgFile) (maxDim : Nat),
    (needsBySize f || needsByDim f maxDim) = true →
    (downscaleIfNeeded f maxDim).outTypeOf
        = some (if f.type = "image/png" && needsBySize f then "image/jpeg" else f.type) ∧
    (downscaleIfNeeded f maxDim).qualityOf = some (9 / 10) := by
  intro f maxDim h
  have hcond : (!needsBySize f && !needsByDim f maxDim) = false := by
    cases hs : needsBySize f <;> cases hd : needsByDim f maxDim <;> simp_all
  simp [downscaleIfNeeded, hcond, ScaleResult.outTypeOf, ScaleResult.qualityOf]

/-- C8 witness: a 11 MB 100×100 PNG (size-triggered only) is re-encoded as
JPEG at quality 0.9. -/
theorem claim_C8_w :
    ((needsBySize ⟨11534336, "image/png", 100, 100⟩ ||
        needsByDim ⟨11534336, "image/png", 100, 100⟩ 1920) = true) ∧
    ((downscaleIfNeeded ⟨11534336, "image/png", 100, 100⟩ 1920).outTypeOf
        = some (if ("image/png" : String) = "image/png" &&
            needsBySize ⟨11534336, "image/png", 100, 100⟩ then "image/jpeg"
          else "image/png") ∧
     (downscaleIfNeeded ⟨11534336, "image/png", 100, 100⟩ 1920).qualityOf
        = some (9 / 10)) :=
  ⟨by decide, claim_C8 ⟨11534336, "image/png", 100, 100⟩ 1920 (by decide)⟩

/-- C9: a payload parsing to any JSON array loads as its first at most 5
elements, whatever those elements are — no per-element validation occurs. -/
theorem claim_C9 : ∀ elems : List JVal,
    loadHistory (.value (.arr elems)) = elems.take 5 := by
  intro elems
  rfl

/-- C10: with a non-positive `maxAttempts` the retry loop never runs: no mock
call is made, the counter is unchanged, and the call rejects with the
`Unreachable` error, which is neither the overloaded nor the abort error. -/
theorem claim_C10 : ∀ (req : GenerateRequest) (fresh : String × String)
    (ab : Option Nat) (counter : Nat) (m : Int),
    m ≤ 0 →
    generateWithRetries req fresh m ab counter = (.err .unreachable, counter, 0, 0) ∧
    Err.unreachable ≠ .overloadedError ∧ Err.unreachable ≠ .abortError := by
  intro req fresh ab counter m hm
  have h0 : m.toNat = 0 := Int.toNat_of_nonpos hm
  refine ⟨?_, by decide, by decide⟩
  simp [generateWithRetries, h0, genRetriesGo]

/-- C10 witness: `maxAttempts = -1` with a nonzero counter. -/
theorem claim_C10_w :
    ((-1 : Int) ≤ 0) ∧
    (generateWithRetries ⟨"u", "p", .Editorial⟩ ("i", "t") (-1) none 7
        = (.err .unreachable, 7, 0, 0) ∧
     Err.unreachable ≠ .overloadedError ∧ Err.unreachable ≠ .abortError) :=
  ⟨by decide, claim_C10 ⟨"u", "p", .Editorial⟩ ("i", "t") none 7 (-1) (by decide)⟩
